import Mathlib

set_option maxRecDepth 100000

/-!
# Verification of the Code360 profile extraction pipeline (src/main.py)

Shallow embedding of the pipeline implemented in `src/main.py`:

* string primitives mirroring Python's `str.strip`, `str.replace` and the
  `in` substring test, working over `List Char`;
* a JSON value type and a recursive-descent parser modelling the behaviour
  of `json.loads` (strict grammar: double-quoted strings with escapes,
  numbers without leading zeros, arrays, objects, `true`/`false`/`null`,
  full input consumption);
* the model-output post-processing and parse-with-fallback of
  `extract_profile_data` (lines 95-101);
* the input-length guard of `extract_profile_data` (lines 66-68);
* the lenient HTML tokenizer behind `clean_html` (lines 58-63); the external
  `BeautifulSoup(html, "html.parser")` call is modelled as a permissive
  character-level state machine that drops tags and the raw content of
  `script`, `style` and `noscript` elements, then joins the text nodes with
  newline separators after stripping each node, as `get_text("\n", strip=True)`
  does (tag names are matched case-sensitively, character entities are kept
  verbatim: both immaterial to the properties proved here);
* the orchestration of `scrape_profile` (lines 113-131), with the outcomes
  of the external effects (Selenium driver, Groq model call, file system)
  passed in explicitly, and uncaught Python exceptions represented by an
  `unhandled` failure that the surrounding FastAPI framework surfaces with
  HTTP status 500;
* the persistence routine `save_json` (lines 104-110) acting on an explicit
  single-file filesystem state.
-/

/-- Python-style whitespace test covering the characters `str.strip` removes
in the inputs considered here. -/
def isPyWs (c : Char) : Bool :=
  c = ' ' || c = '\t' || c = '\n' || c = '\r' || c = '\x0b' || c = '\x0c'

/-- Model of Python `str.strip()`: drop leading and trailing whitespace. -/
def pyStrip (l : List Char) : List Char :=
  ((l.dropWhile isPyWs).reverse.dropWhile isPyWs).reverse

/-- Model of Python `str.replace(pat, rep)` (leftmost, non-overlapping, all
occurrences), with explicit fuel; `fuel = length of the input` suffices
because each step consumes at least one character. -/
def pyReplaceAux (pat rep : List Char) : Nat → List Char → List Char
  | 0, s => s
  | _, [] => []
  | fuel + 1, c :: rest =>
    if pat ≠ [] ∧ pat.isPrefixOf (c :: rest) then
      rep ++ pyReplaceAux pat rep fuel (List.drop (pat.length - 1) rest)
    else
      c :: pyReplaceAux pat rep fuel rest

/-- Model of Python `s.replace(pat, rep)`. -/
def pyReplace (s pat rep : List Char) : List Char :=
  pyReplaceAux pat rep s.length s

/-- Model of Python's substring test `pat in s`. -/
def containsSub (pat : List Char) : List Char → Bool
  | [] => pat.isEmpty
  | c :: rest => pat.isPrefixOf (c :: rest) || containsSub pat rest

mutual

/-- JSON values as produced by `json.loads`; numbers are kept as their
source lexemes, which is sufficient for the properties proved here. -/
inductive Json where
  | null : Json
  | bool (b : Bool) : Json
  | num (lexeme : String) : Json
  | str (s : String) : Json
  | arr (elems : JsonList) : Json
  | obj (fields : JsonFields) : Json
deriving DecidableEq

/-- A sequence of JSON values (the contents of an array). -/
inductive JsonList where
  | nil : JsonList
  | cons (head : Json) (tail : JsonList) : JsonList
deriving DecidableEq

/-- A sequence of key/value members (the contents of an object). -/
inductive JsonFields where
  | nil : JsonFields
  | cons (key : String) (val : Json) (tail : JsonFields) : JsonFields
deriving DecidableEq

end

/-- JSON insignificant whitespace (the four characters `json.loads` skips). -/
def isJsonWs (c : Char) : Bool :=
  c = ' ' || c = '\t' || c = '\n' || c = '\r'

/-- Skip JSON insignificant whitespace. -/
def skipWs (l : List Char) : List Char :=
  l.dropWhile isJsonWs

/-- Value of a hexadecimal digit, if any. -/
def hexVal (c : Char) : Option Nat :=
  if '0' ≤ c ∧ c ≤ '9' then some (c.toNat - '0'.toNat)
  else if 'a' ≤ c ∧ c ≤ 'f' then some (c.toNat - 'a'.toNat + 10)
  else if 'A' ≤ c ∧ c ≤ 'F' then some (c.toNat - 'A'.toNat + 10)
  else none

/-- Single-character JSON string escapes accepted by `json.loads`. -/
def escChar (c : Char) : Option Char :=
  if c = '\x22' then some '\x22'
  else if c = '\\' then some '\\'
  else if c = '/' then some '/'
  else if c = 'b' then some '\x08'
  else if c = 'f' then some '\x0c'
  else if c = 'n' then some '\n'
  else if c = 'r' then some '\r'
  else if c = 't' then some '\t'
  else none

/-- Parse the body of a JSON string after the opening quote, returning the
decoded characters and the input after the closing quote.  Raw control
characters are rejected, as `json.loads` does in strict mode; `\uXXXX`
escapes outside the surrogate range are decoded. -/
def parseStrAux : List Char → Option (List Char × List Char)
  | [] => none
  | '\x22' :: rest => some ([], rest)
  | '\\' :: 'u' :: a :: b :: c :: d :: rest =>
    match hexVal a, hexVal b, hexVal c, hexVal d with
    | some ha, some hb, some hc, some hd =>
      let n := ((ha * 16 + hb) * 16 + hc) * 16 + hd
      if 0xD800 ≤ n ∧ n < 0xE000 then none
      else (parseStrAux rest).map (fun p => (Char.ofNat n :: p.1, p.2))
    | _, _, _, _ => none
  | '\\' :: e :: rest =>
    match escChar e with
    | some ch => (parseStrAux rest).map (fun p => (ch :: p.1, p.2))
    | none => none
  | c :: rest =>
    if c.toNat < 32 then none
    else (parseStrAux rest).map (fun p => (c :: p.1, p.2))

/-- Parse a JSON number lexeme (`json.loads` grammar: optional minus, integer
part without leading zeros, optional fraction, optional exponent). -/
def parseNumber (cs : List Char) : Option (List Char × List Char) :=
  let (sign, cs1) :=
    match cs with
    | '-' :: r => (['-'], r)
    | _ => (([] : List Char), cs)
  let ip := cs1.takeWhile Char.isDigit
  let r1 := cs1.dropWhile Char.isDigit
  if ip = [] then none
  else if 1 < ip.length ∧ ip.head? = some '0' then none
  else
    let (fp, r2) :=
      match r1 with
      | '.' :: r =>
        let ds := r.takeWhile Char.isDigit
        if ds = [] then (none, r1) else (some ('.' :: ds), r.dropWhile Char.isDigit)
      | _ => (none, r1)
    match fp, r1 with
    | none, '.' :: _ => none
    | _, _ =>
      let (ep, r3) :=
        match r2 with
        | 'e' :: '+' :: r =>
          let ds := r.takeWhile Char.isDigit
          if ds = [] then (none, r2) else (some ('e' :: '+' :: ds), r.dropWhile Char.isDigit)
        | 'e' :: '-' :: r =>
          let ds := r.takeWhile Char.isDigit
          if ds = [] then (none, r2) else (some ('e' :: '-' :: ds), r.dropWhile Char.isDigit)
        | 'e' :: r =>
          let ds := r.takeWhile Char.isDigit
          if ds = [] then (none, r2) else (some ('e' :: ds), r.dropWhile Char.isDigit)
        | 'E' :: '+' :: r =>
          let ds := r.takeWhile Char.isDigit
          if ds = [] then (none, r2) else (some ('E' :: '+' :: ds), r.dropWhile Char.isDigit)
        | 'E' :: '-' :: r =>
          let ds := r.takeWhile Char.isDigit
          if ds = [] then (none, r2) else (some ('E' :: '-' :: ds), r.dropWhile Char.isDigit)
        | 'E' :: r =>
          let ds := r.takeWhile Char.isDigit
          if ds = [] then (none, r2) else (some ('E' :: ds), r.dropWhile Char.isDigit)
        | _ => (none, r2)
      match ep, r2 with
      | none, 'e' :: _ => none
      | none, 'E' :: _ => none
      | _, _ =>
        some (sign ++ ip ++ fp.getD [] ++ ep.getD [], r3)

mutual

/-- Parse one JSON value, returning it and the remaining input. -/
def parseValue : Nat → List Char → Option (Json × List Char)
  | 0, _ => none
  | fuel + 1, cs =>
    match skipWs cs with
    | '\x22' :: r => (parseStrAux r).map (fun p => (Json.str ⟨p.1⟩, p.2))
    | 't' :: r =>
      if ['r', 'u', 'e'].isPrefixOf r then some (Json.bool true, r.drop 3) else none
    | 'f' :: r =>
      if ['a', 'l', 's', 'e'].isPrefixOf r then some (Json.bool false, r.drop 4) else none
    | 'n' :: r =>
      if ['u', 'l', 'l'].isPrefixOf r then some (Json.null, r.drop 3) else none
    | '[' :: r =>
      (match skipWs r with
       | ']' :: r2 => some (Json.arr JsonList.nil, r2)
       | _ => (parseElems fuel (skipWs r)).map (fun p => (Json.arr p.1, p.2)))
    | '\x7b' :: r =>
      (match skipWs r with
       | '\x7d' :: r2 => some (Json.obj JsonFields.nil, r2)
       | _ => (parseMembers fuel (skipWs r)).map (fun p => (Json.obj p.1, p.2)))
    | cs2 => (parseNumber cs2).map (fun p => (Json.num ⟨p.1⟩, p.2))

/-- Parse the elements of a JSON array up to and including the closing
bracket. -/
def parseElems : Nat → List Char → Option (JsonList × List Char)
  | 0, _ => none
  | fuel + 1, cs =>
    match parseValue fuel cs with
    | none => none
    | some (v, r) =>
      match skipWs r with
      | ',' :: r2 => (parseElems fuel r2).map (fun p => (JsonList.cons v p.1, p.2))
      | ']' :: r2 => some (JsonList.cons v JsonList.nil, r2)
      | _ => none

/-- Parse the members of a JSON object up to and including the closing
brace. -/
def parseMembers : Nat → List Char → Option (JsonFields × List Char)
  | 0, _ => none
  | fuel + 1, cs =>
    match skipWs cs with
    | '\x22' :: r =>
      match parseStrAux r with
      | none => none
      | some (key, r2) =>
        match skipWs r2 with
        | ':' :: r3 =>
          match parseValue fuel r3 with
          | none => none
          | some (v, r4) =>
            match skipWs r4 with
            | ',' :: r5 => (parseMembers fuel r5).map (fun p => (JsonFields.cons ⟨key⟩ v p.1, p.2))
            | '\x7d' :: r5 => some (JsonFields.cons ⟨key⟩ v JsonFields.nil, r5)
            | _ => none
        | _ => none
    | _ => none

end

/-- Model of `json.loads`: parse one JSON document and require that nothing
but whitespace follows it. -/
def jsonParse (cs : List Char) : Option Json :=
  match parseValue (4 * cs.length + 4) cs with
  | some (v, rest) => if skipWs rest = [] then some v else none
  | none => none

/-- Post-processing of the raw model response applied by
`extract_profile_data` (lines 95 and 98 of `src/main.py`): the response
content is stripped, then the code-fence markers are removed
(`.replace("```json", "").replace("```", "")`) and the result is stripped
again. -/
def cleanModelOutput (content : List Char) : List Char :=
  pyStrip (pyReplace (pyReplace (pyStrip content) "```json".data []) "```".data [])

/-- Parse-with-fallback of `extract_profile_data` (lines 97-101): parse the
cleaned response as JSON; on any parse failure return the fallback record
`\x7b"raw": <cleaned text>\x7d` instead of raising. -/
def parseModelOutput (content : String) : Json :=
  match jsonParse (cleanModelOutput content.data) with
  | some v => v
  | none => Json.obj (JsonFields.cons "raw" (Json.str ⟨cleanModelOutput content.data⟩) JsonFields.nil)

/-- Input guard of `extract_profile_data` (line 67):
`if not text or len(text.strip()) < 100`. -/
def insufficientGuard (text : String) : Bool :=
  text = "" || decide ((pyStrip text.data).length < 100)

/-- User-facing failures of one request.  `http s d` is a raised FastAPI
`HTTPException(status_code = s, detail = d)`; `unhandled m` is any other
uncaught Python exception, which the FastAPI framework surfaces as an HTTP
500 internal-server-error response. -/
inductive Failure where
  | http (status : Nat) (detail : String) : Failure
  | unhandled (msg : String) : Failure
deriving DecidableEq

/-- HTTP status with which a failure reaches the caller: the status of the
`HTTPException`, or 500 for any unhandled exception. -/
def statusOf : Failure → Nat
  | Failure.http s _ => s
  | Failure.unhandled _ => 500

/-- Outcomes of the external effects used by `extract_profile_data`:
`apiKey` is the value of `os.getenv("GROQ_API_KEY")` (`none` when the
variable is absent), `modelResult` the outcome of `chain.invoke(...)`
(content of the response, or the message of the exception it raised). -/
structure ExtractEnv where
  apiKey : Option String
  modelResult : Except String String

/-- Model of `extract_profile_data` (lines 66-101).  The returned `Bool`
records whether the model invocation was performed.  When the credential is
absent, constructing the `ChatGroq` client fails: the external
`langchain_groq` client validates the credential at construction and raises
when `groq_api_key` is passed as `None` and the environment variable is
unset ("Did not find groq_api_key"); this uncaught exception propagates. -/
def extract_profile_data (env : ExtractEnv) (text : String) : Bool × Except Failure Json :=
  if insufficientGuard text then
    (false, Except.error (Failure.http 400 "Insufficient profile text extracted."))
  else
    match env.apiKey with
    | none => (false, Except.error (Failure.unhandled "Did not find groq_api_key"))
    | some _ =>
      match env.modelResult with
      | Except.error e => (true, Except.error (Failure.unhandled e))
      | Except.ok content => (true, Except.ok (parseModelOutput content))

/-- URL resolution of `scrape_profile` (lines 115-118): an identifier that
contains the known host is used verbatim, any other identifier is spliced
into the profile-URL template. -/
def resolveProfileUrl (username : String) : String :=
  if containsSub "naukri.com".data username.data then username
  else "https://www.naukri.com/code360/profile/" ++ username

/-- Tokenizer modes of the permissive HTML parse behind `clean_html`
(lines 58-63 of `src/main.py`; the external `BeautifulSoup(html,
"html.parser")` is modelled as a character-level state machine):

* `text` — accumulating a visible text node;
* `lt` — just saw `<` in text, the next character decides whether a markup
  construct starts (a letter, `/`, `!` or `?`) or the `<` is literal text;
* `tagName nr` — reading a start-tag name (accumulated reversed in `nr`);
* `tagRest nm` — inside a start tag named `nm` (reversed), waiting for `>`;
* `skipTag` — inside an end tag, declaration or processing instruction,
  waiting for `>`;
* `raw nm k` — inside the raw content of a `script`/`style`/`noscript`
  element named `nm`, having matched the first `k` characters of the
  closing delimiter `</nm`; this content is dropped, mirroring
  `tag.decompose()` for `soup(["script", "style", "noscript"])`;
* `rawEnd` — matched `</nm` plus a separator, waiting for the final `>`. -/
inductive Mode where
  | text : Mode
  | lt : Mode
  | tagName (nr : List Char) : Mode
  | tagRest (nm : List Char) : Mode
  | skipTag : Mode
  | raw (nm : List Char) (k : Nat) : Mode
  | rawEnd : Mode
deriving DecidableEq

/-- Scanner state: current mode, current text node (reversed), completed
text nodes (each reversed, most recent first).  One completed node
corresponds to one `NavigableString` of the parsed soup. -/
structure St where
  mode : Mode
  cur : List Char
  acc : List (List Char)
deriving DecidableEq

/-- The elements whose entire content `clean_html` removes
(`soup(["script", "style", "noscript"])` followed by `decompose()`). -/
def rawTags : List (List Char) :=
  ["script".data, "style".data, "noscript".data]

/-- Mode after the `>` that closes a start tag named `nm` (reversed
accumulator): raw-content elements switch the tokenizer into raw mode. -/
def openTagDone (nr : List Char) : Mode :=
  if nr.reverse ∈ rawTags then Mode.raw nr.reverse 0 else Mode.text

/-- One character of raw `script`/`style`/`noscript` content: match the
closing delimiter `</nm` incrementally; on a mismatch only a `<` can start
a new candidate match (no later character of `</nm` is a `<`). -/
def rawStep (nm : List Char) (k : Nat) (c : Char) : Mode :=
  let p := '<' :: '/' :: nm
  if k < p.length then
    if c = p.getD k ' ' then Mode.raw nm (k + 1)
    else if c = '<' then Mode.raw nm 1
    else Mode.raw nm 0
  else if c = '>' then Mode.text
  else if c = ' ' ∨ c = '\t' ∨ c = '\n' ∨ c = '\r' ∨ c = '/' then Mode.rawEnd
  else if c = '<' then Mode.raw nm 1
  else Mode.raw nm 0

/-- One step of the tokenizer. -/
def step : St → Char → St
  | ⟨Mode.text, cur, acc⟩, c =>
    if c = '<' then ⟨Mode.lt, cur, acc⟩ else ⟨Mode.text, c :: cur, acc⟩
  | ⟨Mode.lt, cur, acc⟩, c =>
    if c.isAlpha then ⟨Mode.tagName [c], [], cur :: acc⟩
    else if c = '/' ∨ c = '!' ∨ c = '?' then ⟨Mode.skipTag, [], cur :: acc⟩
    else if c = '<' then ⟨Mode.lt, [], ['<'] :: cur :: acc⟩
    else ⟨Mode.text, [c], ['<'] :: cur :: acc⟩
  | ⟨Mode.tagName nr, cur, acc⟩, c =>
    if c.isAlphanum then ⟨Mode.tagName (c :: nr), cur, acc⟩
    else if c = '>' then ⟨openTagDone nr, cur, acc⟩
    else ⟨Mode.tagRest nr, cur, acc⟩
  | ⟨Mode.tagRest nr, cur, acc⟩, c =>
    if c = '>' then ⟨openTagDone nr, cur, acc⟩ else ⟨Mode.tagRest nr, cur, acc⟩
  | ⟨Mode.skipTag, cur, acc⟩, c =>
    if c = '>' then ⟨Mode.text, cur, acc⟩ else ⟨Mode.skipTag, cur, acc⟩
  | ⟨Mode.raw nm k, cur, acc⟩, c => ⟨rawStep nm k c, cur, acc⟩
  | ⟨Mode.rawEnd, cur, acc⟩, c =>
    if c = '>' then ⟨Mode.text, cur, acc⟩ else ⟨Mode.rawEnd, cur, acc⟩

/-- Run the tokenizer over a character list from the initial state. -/
def scanSt (l : List Char) : St :=
  l.foldl step ⟨Mode.text, [], []⟩

/-- Close the final text node at end of input.  A pending lone `<` is
emitted as text (as the underlying parser does on `close()`); an
unterminated tag or raw element contributes nothing. -/
def finalizeSt (st : St) : List (List Char) :=
  match st.mode with
  | Mode.text => st.cur :: st.acc
  | Mode.lt => ['<'] :: st.cur :: st.acc
  | _ => st.acc

/-- Model of `str.join` with a newline separator, as used by
`get_text(separator="\n", ...)`. -/
def joinNodes : List (List Char) → List Char
  | [] => []
  | [n] => n
  | n :: rest => n ++ '\n' :: joinNodes rest

/-- The text nodes of the parsed markup, oldest first, characters in
order. -/
def textNodes (html : String) : List (List Char) :=
  ((finalizeSt (scanSt html.data)).reverse).map List.reverse

/-- Model of `clean_html` (lines 58-63): parse permissively, drop all tags
and the whole content of `script`/`style`/`noscript` elements, then
`get_text(separator="\n", strip=True)`: strip each text node, drop the
empty ones, and join the rest with newlines. -/
def clean_html (html : String) : String :=
  ⟨joinNodes (((textNodes html).map pyStrip).filter (fun n => n ≠ []))⟩

example : clean_html "<p>Hello <b>world</b></p>" = "Hello\nworld" := by decide
example : clean_html "a<script>var x = 1;</script>b" = "a\nb" := by decide
example : clean_html "x<style>p \x7bcolor: red\x7d</style>y" = "x\ny" := by decide
example : clean_html "" = "" := by decide
example : clean_html "a < b" = "a\n<\nb" := by decide
example : clean_html "  <div>  padded  </div>  " = "padded" := by decide
example : clean_html "<script>never closed" = "" := by decide

/-- Renderer lifecycle events: creation of the Selenium driver
(`webdriver.Chrome(...)`) and its release (`driver.quit()`). -/
inductive REv where
  | acquire : REv
  | release : REv
deriving DecidableEq

/-- Outcomes of the external Selenium effects used by one fetch:
`init` is the outcome of constructing the driver, `nav` of `driver.get`,
`shot` of `driver.save_screenshot`, and `markup` the value of
`driver.page_source`. -/
structure DriverEnv where
  init : Except String Unit
  nav : Except String Unit
  shot : Except String Unit
  markup : String

/-- Model of `init_driver` (lines 29-42): any exception while configuring
or launching the driver is wrapped in
`HTTPException(status_code=500, detail=f"Selenium init failed: ...")`. -/
def init_driver (d : Except String Unit) : Except Failure Unit :=
  match d with
  | Except.error e => Except.error (Failure.http 500 ("Selenium init failed: " ++ e))
  | Except.ok _ => Except.ok ()

/-- Model of `fetch_profile_html` (lines 45-55), returning the renderer
lifecycle events of the call together with its outcome.  The driver is
acquired fresh by `init_driver()`; the `try/finally` guarantees
`driver.quit()` on every path after acquisition (navigation error,
screenshot error, success); exceptions of `driver.get` and
`save_screenshot` propagate unhandled. -/
def fetch_profile_html (env : DriverEnv) (profile_url : String) :
    List REv × Except Failure String :=
  match init_driver env.init with
  | Except.error f => ([], Except.error f)
  | Except.ok _ =>
    match env.nav with
    | Except.error e => ([REv.acquire, REv.release], Except.error (Failure.unhandled e))
    | Except.ok _ =>
      match env.shot with
      | Except.error e => ([REv.acquire, REv.release], Except.error (Failure.unhandled e))
      | Except.ok _ => ([REv.acquire, REv.release], Except.ok env.markup)

/-- Content of the file at the default persistence path: either the full
serialization of a record (a completed `json.dump`), or the first `k`
tokens of the serialization of `j` (a `json.dump` that failed midway over
a file already truncated by `open(path, "w")`). -/
inductive FileContent where
  | full (j : Json) : FileContent
  | part (j : Json) (k : Nat) : FileContent
deriving DecidableEq

/-- Outcomes of the file-system effects used by `save_json`: whether
`open(path, "w")` succeeds, whether `json.dump` runs to completion, and
how much of the serialization a failed dump wrote. -/
structure SinkEnv where
  openOk : Bool
  dumpOk : Bool
  written : Nat

/-- The `if os.path.exists(path): os.remove(path)` phase of `save_json`
(lines 106-107): after it, no file is present at the path. -/
def removePhase (fs : Option FileContent) : Option FileContent :=
  match fs with
  | some _ => none
  | none => none

/-- Model of `save_json` (lines 104-110) acting on the file at the default
path: first the remove phase, then `open(path, "w")` and `json.dump`.
Returns the resulting file state and the outcome (the returned path, or
the propagated unhandled exception). -/
def save_json (fs : Option FileContent) (data : Json) (sk : SinkEnv) :
    Option FileContent × Except Failure String :=
  let fs1 := removePhase fs
  if sk.openOk then
    if sk.dumpOk then (some (FileContent.full data), Except.ok "profile_data.json")
    else (some (FileContent.part data sk.written), Except.error (Failure.unhandled "dump failed"))
  else (fs1, Except.error (Failure.unhandled "open failed"))

/-- Successful response of `scrape_profile` (lines 125-131). -/
structure Response where
  success : Bool
  url : String
  screenshot : String
  json_path : String
  data : Json

/-- All external-effect outcomes of one request. -/
structure AppEnv where
  driver : DriverEnv
  extractor : ExtractEnv
  sink : SinkEnv

/-- Model of the route handler `scrape_profile` (lines 113-131): resolve
the URL, fetch, clean, extract, persist, respond.  No stage is wrapped in
`try/except`, so the first failing stage aborts the request with its
failure. -/
def scrape_profile (env : AppEnv) (fs : Option FileContent) (username : String) :
    Option FileContent × Except Failure Response :=
  let profile_url := resolveProfileUrl username
  match (fetch_profile_html env.driver profile_url).2 with
  | Except.error f => (fs, Except.error f)
  | Except.ok html =>
    let text := clean_html html
    match (extract_profile_data env.extractor text).2 with
    | Except.error f => (fs, Except.error f)
    | Except.ok extracted =>
      match save_json fs extracted env.sink with
      | (fs2, Except.error f) => (fs2, Except.error f)
      | (fs2, Except.ok json_path) =>
        (fs2, Except.ok ⟨true, profile_url, "profile_ss.png", json_path, extracted⟩)

example : jsonParse "I cannot process this".data = none := by decide
example :
    jsonParse "\x7b\x22name\x22:\x22A\x22\x7d".data
      = some (Json.obj (JsonFields.cons "name" (Json.str "A") JsonFields.nil)) := by decide
example : jsonParse " [1, true, null] ".data
    = some (Json.arr (JsonList.cons (Json.num "1") (JsonList.cons (Json.bool true)
        (JsonList.cons Json.null JsonList.nil)))) := by decide

/-- The input guard fires exactly when the stripped text is shorter than
100 characters; the extra `not text` disjunct of line 67 is subsumed,
since the strip of the empty string is empty. -/
lemma insufficientGuard_iff (text : String) :
    insufficientGuard text = true ↔ (pyStrip text.data).length < 100 := by
  unfold insufficientGuard
  simp only [Bool.or_eq_true, decide_eq_true_eq]
  constructor
  · rintro (h | h)
    · subst h; decide
    · exact h
  · exact fun h => Or.inr h

/-- C1: for every text-generation response, if the cleaned (trimmed,
fence-stripped) response is not parseable as JSON, the extract operation
returns the fallback record `\x7b raw: <cleaned text> \x7d` and does not
raise an error. -/
theorem extract_fallback_on_unparseable (content : String)
    (h : jsonParse (cleanModelOutput content.data) = none) :
    parseModelOutput content
      = Json.obj (JsonFields.cons "raw"
          (Json.str ⟨cleanModelOutput content.data⟩) JsonFields.nil) := by
  unfold parseModelOutput
  rw [h]

/-- Witness for C1: the response `"I cannot process this"` is not parseable
as JSON, and extraction yields `\x7b raw: "I cannot process this" \x7d`. -/
theorem extract_fallback_on_unparseable_witness :
    jsonParse (cleanModelOutput "I cannot process this".data) = none
    ∧ parseModelOutput "I cannot process this"
        = Json.obj (JsonFields.cons "raw"
            (Json.str "I cannot process this") JsonFields.nil) :=
  ⟨by decide,
   (extract_fallback_on_unparseable "I cannot process this" (by decide)).trans (by decide)⟩

/-- C2: the extract operation raises the 400 `InsufficientInputError`
exactly when the stripped text length is below 100; with the credential
present, any text passing the guard proceeds to the model invocation. -/
theorem extract_input_guard :
    (∀ (env : ExtractEnv) (text : String),
      (extract_profile_data env text).2
          = Except.error (Failure.http 400 "Insufficient profile text extracted.")
        ↔ (pyStrip text.data).length < 100)
    ∧ (∀ (env : ExtractEnv) (text : String),
        env.apiKey.isSome = true → ¬ (pyStrip text.data).length < 100 →
        (extract_profile_data env text).1 = true) := by
  constructor
  · intro env text
    constructor
    · intro h
      by_cases hg : insufficientGuard text = true
      · exact (insufficientGuard_iff text).1 hg
      · exfalso
        unfold extract_profile_data at h
        rw [if_neg hg] at h
        rcases hk : env.apiKey with _ | k <;> rw [hk] at h
        · simp at h
        · rcases hm : env.modelResult with e | content <;> rw [hm] at h <;> simp at h
    · intro h
      have hg : insufficientGuard text = true := (insufficientGuard_iff text).2 h
      unfold extract_profile_data
      rw [if_pos hg]
  · intro env text hk hlen
    have hg : ¬ insufficientGuard text = true := fun hg =>
      hlen ((insufficientGuard_iff text).1 hg)
    unfold extract_profile_data
    rw [if_neg hg]
    rcases Option.isSome_iff_exists.1 hk with ⟨k, hk2⟩
    rw [hk2]
    rcases env.modelResult with e | content <;> simp

/-- Witness for C2: with the credential present and the model responding,
text of length 50 raises the 400 error and text of length 150 reaches the
model invocation. -/
theorem extract_input_guard_witness :
    (extract_profile_data ⟨some "k", Except.ok "x"⟩ ⟨List.replicate 50 'a'⟩).2
        = Except.error (Failure.http 400 "Insufficient profile text extracted.")
    ∧ (extract_profile_data ⟨some "k", Except.ok "x"⟩ ⟨List.replicate 150 'a'⟩).1 = true :=
  ⟨(extract_input_guard.1 ⟨some "k", Except.ok "x"⟩ _).2 (by decide),
   extract_input_guard.2 ⟨some "k", Except.ok "x"⟩ _ (by decide) (by decide)⟩

/-- C3: an identifier containing the known host is used verbatim as the
profile URL, any other identifier is spliced into the template; in
particular `"jdoe123"` resolves to the canonical profile URL and the
canonical profile URL resolves to itself. -/
theorem resolve_url_spec :
    (∀ u : String, containsSub "naukri.com".data u.data = true → resolveProfileUrl u = u)
    ∧ (∀ u : String, containsSub "naukri.com".data u.data = false →
        resolveProfileUrl u = "https://www.naukri.com/code360/profile/" ++ u)
    ∧ resolveProfileUrl "jdoe123" = "https://www.naukri.com/code360/profile/jdoe123"
    ∧ resolveProfileUrl "https://www.naukri.com/code360/profile/jdoe123"
        = "https://www.naukri.com/code360/profile/jdoe123" := by
  refine ⟨?_, ?_, by decide, by decide⟩
  · intro u h
    unfold resolveProfileUrl
    rw [if_pos h]
  · intro u h
    unfold resolveProfileUrl
    rw [if_neg (by simp [h])]

/-- Witness for C3: the canonical profile URL contains the known host and
resolves to itself. -/
theorem resolve_url_spec_witness :
    containsSub "naukri.com".data "https://www.naukri.com/code360/profile/jdoe123".data = true
    ∧ resolveProfileUrl "https://www.naukri.com/code360/profile/jdoe123"
        = "https://www.naukri.com/code360/profile/jdoe123" :=
  ⟨by decide, resolve_url_spec.1 "https://www.naukri.com/code360/profile/jdoe123" (by decide)⟩

/-- C4: post-processing strips code-fence markers before parsing, so a
JSON-labeled fenced response extracts to the same record as the bare
response, namely the parsed object. -/
theorem fence_strip_equal :
    parseModelOutput "```json\n\x7b\x22name\x22:\x22A\x22\x7d\n```"
      = parseModelOutput "\x7b\x22name\x22:\x22A\x22\x7d"
    ∧ parseModelOutput "```json\n\x7b\x22name\x22:\x22A\x22\x7d\n```"
      = Json.obj (JsonFields.cons "name" (Json.str "A") JsonFields.nil) :=
  ⟨by decide, by decide⟩

/-- Counterexample to C6: a renderer navigation failure propagates as an
unhandled exception and reaches the caller with the same internal-error
classification (HTTP 500) as an unexpected failure such as a broken sink —
not as a distinct service-unavailable classification (503).  Renderer launch
failures likewise surface with status 500. -/
theorem renderer_failure_not_distinct_cex :
    (scrape_profile
        ⟨⟨Except.ok (), Except.error "net::ERR_TIMED_OUT", Except.ok (), ""⟩,
         ⟨some "k", Except.ok ""⟩, ⟨true, true, 0⟩⟩ none "jdoe123").2
      = Except.error (Failure.unhandled "net::ERR_TIMED_OUT")
    ∧ (scrape_profile
        ⟨⟨Except.ok (), Except.ok (), Except.ok (), ⟨List.replicate 120 'a'⟩⟩,
         ⟨some "k", Except.ok "\x7b\x22name\x22:\x22A\x22\x7d"⟩, ⟨false, true, 0⟩⟩
        none "jdoe123").2
      = Except.error (Failure.unhandled "open failed")
    ∧ statusOf (Failure.unhandled "net::ERR_TIMED_OUT")
        = statusOf (Failure.unhandled "open failed")
    ∧ statusOf (Failure.unhandled "net::ERR_TIMED_OUT") ≠ 503
    ∧ statusOf (Failure.http 500 "Selenium init failed: no chrome binary") ≠ 503 :=
  ⟨rfl, rfl, rfl, by decide, by decide⟩

/-- C6 as amended: renderer launch failures are surfaced as
`HTTPException(500, "Selenium init failed: ...")`, and renderer navigation
failures propagate as unhandled exceptions, both reaching the caller with
the internal-error status 500 — the same classification as other
unexpected failures, not a distinct service-unavailable one; only the
insufficient-input guard uses the distinct bad-input status 400. -/
theorem renderer_failure_maps_to_500 :
    (∀ (env : AppEnv) (fs : Option FileContent) (u e : String),
      env.driver.init = Except.error e →
      (scrape_profile env fs u).2
          = Except.error (Failure.http 500 ("Selenium init failed: " ++ e))
        ∧ statusOf (Failure.http 500 ("Selenium init failed: " ++ e)) = 500)
    ∧ (∀ (env : AppEnv) (fs : Option FileContent) (u e : String),
        env.driver.init = Except.ok () → env.driver.nav = Except.error e →
        (scrape_profile env fs u).2 = Except.error (Failure.unhandled e)
        ∧ statusOf (Failure.unhandled e) = 500) := by
  constructor
  · intro env fs u e h
    refine ⟨?_, rfl⟩
    unfold scrape_profile fetch_profile_html init_driver
    rw [h]
  · intro env fs u e h1 h2
    refine ⟨?_, rfl⟩
    unfold scrape_profile fetch_profile_html init_driver
    rw [h1, h2]

/-- Witness for C6 as amended: a concrete launch failure and a concrete
navigation failure both surface with status 500. -/
theorem renderer_failure_maps_to_500_witness :
    (scrape_profile
        ⟨⟨Except.error "no chrome binary", Except.ok (), Except.ok (), ""⟩,
         ⟨some "k", Except.ok ""⟩, ⟨true, true, 0⟩⟩ none "jdoe123").2
      = Except.error (Failure.http 500 ("Selenium init failed: " ++ "no chrome binary"))
    ∧ (scrape_profile
        ⟨⟨Except.ok (), Except.error "nav crash", Except.ok (), ""⟩,
         ⟨some "k", Except.ok ""⟩, ⟨true, true, 0⟩⟩ none "jdoe123").2
      = Except.error (Failure.unhandled "nav crash") :=
  ⟨(renderer_failure_maps_to_500.1
      ⟨⟨Except.error "no chrome binary", Except.ok (), Except.ok (), ""⟩,
       ⟨some "k", Except.ok ""⟩, ⟨true, true, 0⟩⟩ none "jdoe123" "no chrome binary" rfl).1,
   (renderer_failure_maps_to_500.2
      ⟨⟨Except.ok (), Except.error "nav crash", Except.ok (), ""⟩,
       ⟨some "k", Except.ok ""⟩, ⟨true, true, 0⟩⟩ none "jdoe123" "nav crash" rfl rfl).1⟩

/-- Counterexample to C7: with every stage succeeding except persistence
(`open` fails), the extraction has already produced the parsed record, yet
the request fails with the sink's unhandled exception and the record is
not returned to the caller. -/
theorem sink_failure_discards_record_cex :
    (extract_profile_data ⟨some "k", Except.ok "\x7b\x22name\x22:\x22A\x22\x7d"⟩
        (clean_html ⟨List.replicate 120 'a'⟩)).2
      = Except.ok (Json.obj (JsonFields.cons "name" (Json.str "A") JsonFields.nil))
    ∧ (scrape_profile
        ⟨⟨Except.ok (), Except.ok (), Except.ok (), ⟨List.replicate 120 'a'⟩⟩,
         ⟨some "k", Except.ok "\x7b\x22name\x22:\x22A\x22\x7d"⟩, ⟨false, true, 0⟩⟩
        (some (FileContent.full (Json.str "old"))) "jdoe123").2
      = Except.error (Failure.unhandled "open failed") :=
  ⟨rfl, rfl⟩

/-- C7 as amended: when persistence fails after a successful extraction,
the request fails with the sink's error (surfaced as an internal error)
and the already-computed record is discarded rather than returned. -/
theorem sink_failure_fails_request :
    ∀ (env : AppEnv) (fs : Option FileContent) (u : String) (r : Json) (f : Failure),
      env.driver.init = Except.ok () → env.driver.nav = Except.ok () →
      env.driver.shot = Except.ok () →
      (extract_profile_data env.extractor (clean_html env.driver.markup)).2 = Except.ok r →
      (save_json fs r env.sink).2 = Except.error f →
      (scrape_profile env fs u).2 = Except.error f := by
  intro env fs u r f h1 h2 h3 h4 h5
  simp only [scrape_profile, fetch_profile_html, init_driver, h1, h2, h3, h4]
  rcases hs : save_json fs r env.sink with ⟨fs2, res⟩
  rw [hs] at h5
  rcases res with e | p
  · simp at h5 ⊢
    exact h5
  · simp at h5

/-- Witness for C7 as amended: concrete request in which extraction
succeeds, persistence fails, and the request fails with the sink error. -/
theorem sink_failure_fails_request_witness :
    (extract_profile_data ⟨some "k", Except.ok "\x7b\x22name\x22:\x22A\x22\x7d"⟩
        (clean_html ⟨List.replicate 120 'a'⟩)).2
      = Except.ok (Json.obj (JsonFields.cons "name" (Json.str "A") JsonFields.nil))
    ∧ (save_json (some (FileContent.full (Json.str "old")))
        (Json.obj (JsonFields.cons "name" (Json.str "A") JsonFields.nil)) ⟨false, true, 0⟩).2
      = Except.error (Failure.unhandled "open failed")
    ∧ (scrape_profile
        ⟨⟨Except.ok (), Except.ok (), Except.ok (), ⟨List.replicate 120 'a'⟩⟩,
         ⟨some "k", Except.ok "\x7b\x22name\x22:\x22A\x22\x7d"⟩, ⟨false, true, 0⟩⟩
        (some (FileContent.full (Json.str "old"))) "jdoe123").2
      = Except.error (Failure.unhandled "open failed") :=
  ⟨rfl, rfl,
   sink_failure_fails_request
     ⟨⟨Except.ok (), Except.ok (), Except.ok (), ⟨List.replicate 120 'a'⟩⟩,
      ⟨some "k", Except.ok "\x7b\x22name\x22:\x22A\x22\x7d"⟩, ⟨false, true, 0⟩⟩
     (some (FileContent.full (Json.str "old"))) "jdoe123"
     (Json.obj (JsonFields.cons "name" (Json.str "A") JsonFields.nil))
     (Failure.unhandled "open failed") rfl rfl rfl rfl rfl⟩

/-- C8: when the credential is absent from the process environment, the
extractor raises a configuration error on first use (constructing the
text-generation client fails) and the model invocation is never performed
with an empty credential. -/
theorem missing_key_config_error :
    ∀ (env : ExtractEnv) (text : String), env.apiKey = none →
      (extract_profile_data env text).1 = false
      ∧ (insufficientGuard text = false →
          (extract_profile_data env text).2
            = Except.error (Failure.unhandled "Did not find groq_api_key")) := by
  intro env text hk
  constructor
  · unfold extract_profile_data
    by_cases hg : insufficientGuard text = true
    · rw [if_pos hg]
    · rw [if_neg hg, hk]
  · intro hg
    unfold extract_profile_data
    rw [if_neg (by simp [hg]), hk]

/-- Witness for C8: with the credential absent and text long enough to
pass the guard, the call raises the configuration error without invoking
the model. -/
theorem missing_key_config_error_witness :
    insufficientGuard ⟨List.replicate 120 'a'⟩ = false
    ∧ (extract_profile_data ⟨none, Except.ok "x"⟩ ⟨List.replicate 120 'a'⟩).1 = false
    ∧ (extract_profile_data ⟨none, Except.ok "x"⟩ ⟨List.replicate 120 'a'⟩).2
        = Except.error (Failure.unhandled "Did not find groq_api_key") :=
  ⟨by decide,
   (missing_key_config_error ⟨none, Except.ok "x"⟩ ⟨List.replicate 120 'a'⟩ rfl).1,
   (missing_key_config_error ⟨none, Except.ok "x"⟩ ⟨List.replicate 120 'a'⟩ rfl).2 (by decide)⟩

/-- C9: on every execution path of the fetch stage, either the renderer is
never acquired (driver construction failed) or it is acquired first and
released afterwards — the `try/finally` never leaves an acquired renderer
unreleased, on failure paths included. -/
theorem fetch_driver_release :
    ∀ (env : DriverEnv) (url : String),
      (fetch_profile_html env url).1 = []
      ∨ (fetch_profile_html env url).1 = [REv.acquire, REv.release] := by
  intro env url
  rcases env with ⟨i, n, s, m⟩
  rcases i with e | u
  · left; rfl
  · rcases n with e | u2
    · right; rfl
    · rcases s with e | u3
      · right; rfl
      · right; rfl

/-- C10: `save_json` deletes any existing file at the default path before
writing, so persistence is not atomic on error: on any failed write after
the delete, the previously persisted record is gone (the file is absent
when `open` fails, and holds partially written new content when
`json.dump` fails) rather than left unchanged. -/
theorem save_json_delete_then_write :
    ∀ (oldj data : Json) (sk : SinkEnv),
      removePhase (some (FileContent.full oldj)) = none
      ∧ (sk.openOk = false →
          (save_json (some (FileContent.full oldj)) data sk).1 = none)
      ∧ (∀ f : Failure,
          (save_json (some (FileContent.full oldj)) data sk).2 = Except.error f →
          (save_json (some (FileContent.full oldj)) data sk).1
            ≠ some (FileContent.full oldj)) := by
  intro oldj data sk
  refine ⟨rfl, ?_, ?_⟩
  · intro h
    unfold save_json removePhase
    rw [if_neg (by simp [h])]
  · intro f hf
    unfold save_json at hf ⊢
    rcases ho : sk.openOk with _ | _
    · rw [if_neg (by simp [ho])]
      simp [removePhase]
    · rw [if_pos (by simp [ho])] at hf ⊢
      rcases hd : sk.dumpOk with _ | _
      · rw [if_neg (by simp [hd])]
        simp
      · rw [if_pos (by simp [hd])] at hf
        simp at hf

/-- Witness for C10: with a record persisted and `open` failing, the old
record is deleted and nothing replaces it. -/
theorem save_json_delete_then_write_witness :
    (save_json (some (FileContent.full (Json.str "old"))) Json.null ⟨false, true, 0⟩).1 = none
    ∧ (save_json (some (FileContent.full (Json.str "old"))) Json.null ⟨false, true, 0⟩).1
        ≠ some (FileContent.full (Json.str "old")) :=
  ⟨(save_json_delete_then_write (Json.str "old") Json.null ⟨false, true, 0⟩).2.1 rfl,
   (save_json_delete_then_write (Json.str "old") Json.null ⟨false, true, 0⟩).2.2
     (Failure.unhandled "open failed") rfl⟩

/-- Adjacent-pair property of the normalized output: a `<` is never
followed by anything but a newline.  In particular no output position
starts a markup tag (`<` immediately followed by a tag name), which
formalizes "the result contains no markup tags". -/
def okPair (a b : Char) : Prop := a ≠ '<' ∨ b = '\n'

/-- Shape of one emitted text node: either the isolated literal `<` node
emitted when a `<` did not open a markup construct, or a node with no `<`
at all. -/
def nodeOK (n : List Char) : Prop := n = ['<'] ∨ '<' ∉ n

/-- Tokenizer invariant: every completed node has the `nodeOK` shape, and
the node being accumulated contains no `<`. -/
def InvSt (st : St) : Prop := (∀ n ∈ st.acc, nodeOK n) ∧ '<' ∉ st.cur

lemma step_inv (st : St) (c : Char) (h : InvSt st) : InvSt (step st c) := by
  obtain ⟨hacc, hcur⟩ := h
  rcases st with ⟨m, cur, acc⟩
  rcases m with _ | _ | nr | nr | _ | ⟨nm, k⟩ | _
  · simp only [step]
    split_ifs with hc
    · exact ⟨hacc, hcur⟩
    · refine ⟨hacc, fun hm => ?_⟩
      rcases List.mem_cons.1 hm with h1 | h1
      · exact hc h1.symm
      · exact hcur h1
  · simp only [step]
    split_ifs with h1 h2 h3
    · refine ⟨fun n hn => ?_, by simp⟩
      rcases List.mem_cons.1 hn with h | h
      · exact h ▸ Or.inr hcur
      · exact hacc n h
    · refine ⟨fun n hn => ?_, by simp⟩
      rcases List.mem_cons.1 hn with h | h
      · exact h ▸ Or.inr hcur
      · exact hacc n h
    · refine ⟨fun n hn => ?_, by simp⟩
      rcases List.mem_cons.1 hn with h | h
      · exact h ▸ Or.inl rfl
      · rcases List.mem_cons.1 h with h4 | h4
        · exact h4 ▸ Or.inr hcur
        · exact hacc n h4
    · refine ⟨fun n hn => ?_, fun hm => ?_⟩
      · rcases List.mem_cons.1 hn with h | h
        · exact h ▸ Or.inl rfl
        · rcases List.mem_cons.1 h with h4 | h4
          · exact h4 ▸ Or.inr hcur
          · exact hacc n h4
      · rcases List.mem_cons.1 hm with h4 | h4
        · exact h3 h4.symm
        · simp at h4
  · simp only [step]
    split_ifs <;> exact ⟨hacc, hcur⟩
  · simp only [step]
    split_ifs <;> exact ⟨hacc, hcur⟩
  · simp only [step]
    split_ifs <;> exact ⟨hacc, hcur⟩
  · exact ⟨hacc, hcur⟩
  · simp only [step]
    split_ifs <;> exact ⟨hacc, hcur⟩

lemma foldl_inv (l : List Char) : ∀ st : St, InvSt st → InvSt (List.foldl step st l) := by
  induction l with
  | nil => exact fun st h => h
  | cons c t ih => exact fun st h => ih (step st c) (step_inv st c h)

lemma scan_inv (l : List Char) : InvSt (scanSt l) :=
  foldl_inv l ⟨Mode.text, [], []⟩ ⟨by simp, by simp⟩

lemma finalize_ok (st : St) (h : InvSt st) : ∀ n ∈ finalizeSt st, nodeOK n := by
  obtain ⟨hacc, hcur⟩ := h
  rcases st with ⟨m, cur, acc⟩
  rcases m with _ | _ | nr | nr | _ | ⟨nm, k⟩ | _ <;> intro n hn
  · rcases List.mem_cons.1 hn with h1 | h1
    · exact h1 ▸ Or.inr hcur
    · exact hacc n h1
  · rcases List.mem_cons.1 hn with h1 | h1
    · exact h1 ▸ Or.inl rfl
    · rcases List.mem_cons.1 h1 with h2 | h2
      · exact h2 ▸ Or.inr hcur
      · exact hacc n h2
  · exact hacc n hn
  · exact hacc n hn
  · exact hacc n hn
  · exact hacc n hn
  · exact hacc n hn

lemma nodeOK_reverse (n : List Char) (h : nodeOK n) : nodeOK n.reverse := by
  rcases h with h | h
  · subst h; exact Or.inl rfl
  · exact Or.inr fun hm => h (List.mem_reverse.1 hm)

lemma mem_of_dropWhile {p : Char → Bool} {a : Char} {l : List Char}
    (h : a ∈ List.dropWhile p l) : a ∈ l := by
  induction l with
  | nil => simpa using h
  | cons x xs ih =>
    rw [List.dropWhile_cons] at h
    split_ifs at h
    · exact List.mem_cons_of_mem _ (ih h)
    · exact h

lemma nodeOK_pyStrip (n : List Char) (h : nodeOK n) : nodeOK (pyStrip n) := by
  rcases h with h | h
  · subst h; exact Or.inl (by decide)
  · refine Or.inr fun hm => ?_
    unfold pyStrip at hm
    exact h (mem_of_dropWhile (List.mem_reverse.1 (mem_of_dropWhile (List.mem_reverse.1 hm))))

lemma chain_of_no_lt (n : List Char) (h : '<' ∉ n) : List.Chain' okPair n := by
  induction n with
  | nil => simp
  | cons a t ih =>
    rw [List.chain'_cons']
    refine ⟨fun y _ => Or.inl fun ha => ?_, ih fun hm => h (List.mem_cons_of_mem _ hm)⟩
    apply h
    rw [← ha]
    exact List.mem_cons_self a t

lemma chain_node (n : List Char) (h : nodeOK n) : List.Chain' okPair n := by
  rcases h with h | h
  · subst h; simp
  · exact chain_of_no_lt n h

lemma join_chain (ns : List (List Char)) (h : ∀ n ∈ ns, nodeOK n) :
    List.Chain' okPair (joinNodes ns) := by
  induction ns with
  | nil => simp [joinNodes]
  | cons n rest ih =>
    rcases rest with _ | ⟨m, t⟩
    · rw [show joinNodes [n] = n from rfl]
      exact chain_node n (h n (by simp))
    · rw [show joinNodes (n :: m :: t) = n ++ '\n' :: joinNodes (m :: t) from rfl,
        List.chain'_append]
      refine ⟨chain_node n (h n (by simp)), ?_, ?_⟩
      · rw [List.chain'_cons']
        exact ⟨fun y _ => Or.inl (by decide),
          ih (fun x hx => h x (List.mem_cons_of_mem _ hx))⟩
      · intro x _ y hy
        simp at hy
        subst hy
        exact Or.inr rfl

lemma clean_html_nodes_ok (html : String) :
    ∀ n ∈ (((textNodes html).map pyStrip).filter (fun n => n ≠ [])), nodeOK n := by
  intro n hn
  rcases List.mem_filter.1 hn with ⟨hn1, _⟩
  rcases List.mem_map.1 hn1 with ⟨n1, hn2, rfl⟩
  apply nodeOK_pyStrip
  unfold textNodes at hn2
  rcases List.mem_map.1 hn2 with ⟨n2, hn3, rfl⟩
  exact nodeOK_reverse n2
    (finalize_ok _ (scan_inv html.data) n2 (List.mem_reverse.1 hn3))

lemma scan_script_open (cur : List Char) (acc : List (List Char)) :
    List.foldl step ⟨Mode.text, cur, acc⟩ "<script>".data
      = ⟨Mode.raw "script".data 0, [], cur :: acc⟩ := rfl

lemma scan_script_close (cur : List Char) (acc : List (List Char)) :
    List.foldl step ⟨Mode.raw "script".data 0, cur, acc⟩ "</script>".data
      = ⟨Mode.text, cur, acc⟩ := rfl

lemma scan_style_open (cur : List Char) (acc : List (List Char)) :
    List.foldl step ⟨Mode.text, cur, acc⟩ "<style>".data
      = ⟨Mode.raw "style".data 0, [], cur :: acc⟩ := rfl

lemma scan_style_close (cur : List Char) (acc : List (List Char)) :
    List.foldl step ⟨Mode.raw "style".data 0, cur, acc⟩ "</style>".data
      = ⟨Mode.text, cur, acc⟩ := rfl

lemma scan_br (cur : List Char) (acc : List (List Char)) :
    List.foldl step ⟨Mode.text, cur, acc⟩ "<br>".data
      = ⟨Mode.text, [], cur :: acc⟩ := rfl

lemma scan_raw_skip (b : List Char) (hb : '<' ∉ b) :
    ∀ (nm cur : List Char) (acc : List (List Char)),
      List.foldl step ⟨Mode.raw nm 0, cur, acc⟩ b = ⟨Mode.raw nm 0, cur, acc⟩ := by
  induction b with
  | nil => intro nm cur acc; rfl
  | cons c t ih =>
    intro nm cur acc
    simp only [List.mem_cons, not_or] at hb
    obtain ⟨h1, h2⟩ := hb
    have hc : ¬ c = '<' := fun e => h1 e.symm
    rw [List.foldl_cons]
    have hstep : step ⟨Mode.raw nm 0, cur, acc⟩ c = ⟨rawStep nm 0 c, cur, acc⟩ := rfl
    rw [hstep]
    have hr : rawStep nm 0 c = Mode.raw nm 0 := by
      simp only [rawStep]
      rw [if_pos (by simp)]
      rw [show ('<' :: '/' :: nm).getD 0 ' ' = '<' from rfl]
      rw [if_neg hc, if_neg hc]
    rw [hr]
    exact ih h2 nm cur acc

/-- C5: for every input markup string, malformed or empty included, the
normalize operation returns (it is a total function, hence raises no
error) a string in which no `<` is followed by anything but a newline —
so the output contains no markup tags — and the inner text of a
well-delimited `script` or `style` block contributes nothing to the
output: the input extracts exactly as if the whole block were a single
contentless tag. -/
theorem clean_html_spec :
    (∀ html : String, List.Chain' okPair (clean_html html).data)
    ∧ (∀ a b c : String, (scanSt a.data).mode = Mode.text → '<' ∉ b.data →
        clean_html (a ++ "<script>" ++ b ++ "</script>" ++ c)
          = clean_html (a ++ "<br>" ++ c))
    ∧ (∀ a b c : String, (scanSt a.data).mode = Mode.text → '<' ∉ b.data →
        clean_html (a ++ "<style>" ++ b ++ "</style>" ++ c)
          = clean_html (a ++ "<br>" ++ c)) := by
  refine ⟨?_, ?_, ?_⟩
  · intro html
    have hrw : (clean_html html).data
        = joinNodes (((textNodes html).map pyStrip).filter (fun n => n ≠ [])) := rfl
    rw [hrw]
    exact join_chain _ (clean_html_nodes_ok html)
  · intro a b c hmode hb
    have key : scanSt (a ++ "<script>" ++ b ++ "</script>" ++ c).data
        = scanSt (a ++ "<br>" ++ c).data := by
      rcases hA : scanSt a.data with ⟨m, cu, ac⟩
      rw [hA] at hmode
      have hm : m = Mode.text := hmode
      subst hm
      unfold scanSt at hA ⊢
      simp only [String.data_append, List.foldl_append]
      rw [hA, scan_script_open, scan_raw_skip b.data hb, scan_script_close, scan_br]
    unfold clean_html textNodes
    rw [key]
  · intro a b c hmode hb
    have key : scanSt (a ++ "<style>" ++ b ++ "</style>" ++ c).data
        = scanSt (a ++ "<br>" ++ c).data := by
      rcases hA : scanSt a.data with ⟨m, cu, ac⟩
      rw [hA] at hmode
      have hm : m = Mode.text := hmode
      subst hm
      unfold scanSt at hA ⊢
      simp only [String.data_append, List.foldl_append]
      rw [hA, scan_style_open, scan_raw_skip b.data hb, scan_style_close, scan_br]
    unfold clean_html textNodes
    rw [key]

/-- Witness for C5: a concrete markup input satisfies the no-tag output
property, and concrete script and style blocks vanish from the normalized
text. -/
theorem clean_html_spec_witness :
    (scanSt "Hello".data).mode = Mode.text
    ∧ '<' ∉ "var x = 1;".data
    ∧ List.Chain' okPair (clean_html "x<a href=q>y</a>z").data
    ∧ clean_html ("Hello" ++ "<script>" ++ "var x = 1;" ++ "</script>" ++ "World")
        = clean_html ("Hello" ++ "<br>" ++ "World")
    ∧ clean_html ("A" ++ "<style>" ++ "p: red" ++ "</style>" ++ "B")
        = clean_html ("A" ++ "<br>" ++ "B") :=
  ⟨rfl, by decide, clean_html_spec.1 "x<a href=q>y</a>z",
   clean_html_spec.2.1 "Hello" "var x = 1;" "World" rfl (by decide),
   clean_html_spec.2.2 "A" "p: red" "B" rfl (by decide)⟩
